import Mathlib

/-!
Verification development for the redditsearch scaffolding repository.

The repository has two production modules:
- src/config/settings.py : a pydantic BaseSettings subclass with seven
  fields, loading values from the process environment and an optional
  .env override file (case sensitive, extra keys ignored), and a
  factory get_settings that builds a fresh instance per call;
- src/utils/logger.py : a setup_logger factory that fetches the named
  logger from the process-wide registry, sets its level, and attaches a
  single Rich console handler only when the logger has no handlers yet.

The embedding below models the environment and the override file as
association lists from key strings to value strings, and the logger
registry as an association list from names to logger states.
-/

namespace RedditSearch

/-- An environment (or override-file content): ordered key/value pairs.
Lookup is case sensitive, matching model_config case_sensitive=True. -/
abbrev Env := List (String × String)

/-- Modelled from the spec: the pydantic-settings resolution of a single
key, absent from src (only the Settings class declaration is in src).
The process environment variable overrides the override-file value. -/
def resolve (env dotenv : Env) (k : String) : Option String :=
  match List.lookup k env with
  | some v => some v
  | none => List.lookup k dotenv

/-- Resolve a string-typed field: external value if present, else default. -/
def resolveStr (env dotenv : Env) (k : String) (dflt : String) : String :=
  (resolve env dotenv k).getD dflt

/-- Scan the characters of a quoted string body up to the closing quote.
Returns the body and the remainder after the closing quote. -/
def scanStr : List Char → Option (List Char × List Char)
  | [] => none
  | c :: rest =>
    if c = '"' then some ([], rest)
    else
      match scanStr rest with
      | some (s, r) => some (c :: s, r)
      | none => none

/-- Parse a comma-separated sequence of quoted strings terminated by a
closing bracket; fuel bounds the number of items. -/
def parseItems : Nat → List Char → Option (List String × List Char)
  | 0, _ => none
  | fuel + 1, cs =>
    match cs with
    | [] => none
    | c :: rest =>
      if c = '"' then
        match scanStr rest with
        | none => none
        | some (s, r) =>
          match r with
          | [] => none
          | d :: r2 =>
            if d = ']' then some ([String.mk s], r2)
            else if d = ',' then
              match r2 with
              | [] => none
              | e :: r3 =>
                if e = ' ' then
                  match parseItems fuel r3 with
                  | none => none
                  | some (items, r4) => some (String.mk s :: items, r4)
                else none
            else none
      else none

/-- Modelled from the spec: the external encoding pydantic-settings uses
for sequence-typed fields (a JSON-style list literal), absent from src.
Parses a list literal of double-quoted strings into an ordered list. -/
def parseStrList (v : String) : Option (List String) :=
  match v.data with
  | [] => none
  | c :: rest =>
    if c = '[' then
      match rest with
      | [] => none
      | d :: rest2 =>
        if d = ']' then (if rest2 = [] then some [] else none)
        else
          match parseItems rest.length rest with
          | some (items, []) => some items
          | _ => none
    else none

/-- The characters of one encoded list element: a double-quoted string. -/
def quoteChars (s : String) : List Char :=
  '"' :: s.data ++ ['"']

/-- The characters of the encoded elements, separated by a comma and a
space, as produced by the list-literal encoding. -/
def encItems : List String → List Char
  | [] => []
  | s :: rest =>
    quoteChars s ++ (if rest.isEmpty then [] else [',', ' ']) ++ encItems rest

/-- Modelled from the spec: the chosen external encoding of a string
list, a bracketed list literal of double-quoted elements. -/
def encodeStrList (l : List String) : String :=
  String.mk ('[' :: encItems l ++ [']'])

/-- A configuration-validation failure, carrying the offending field. -/
inductive SettingsError where
  | parseFailure (field : String)
deriving Repr, DecidableEq

/-- Resolve a sequence-typed field: parse the external value when one is
present, failing with an error that names the field when the value is
not a valid list literal; use the default when no value is supplied. -/
def resolveList (env dotenv : Env) (k : String) (dflt : List String) :
    Except SettingsError (List String) :=
  match resolve env dotenv k with
  | none => Except.ok dflt
  | some v =>
    match parseStrList v with
    | some l => Except.ok l
    | none => Except.error (SettingsError.parseFailure k)

/-- The Configuration Snapshot: the seven fields of the Settings class
in src/config/settings.py. -/
structure Settings where
  REDDIT_CLIENT_ID : String
  REDDIT_CLIENT_SECRET : String
  REDDIT_USER_AGENT : String
  DEFAULT_SUBREDDITS : List String
  DEFAULT_KEYWORDS : List String
  DATABASE_PATH : String
  OUTPUT_DIR : String
deriving Repr, DecidableEq

/-- The built-in defaults declared on the Settings class. -/
def defaultSettings : Settings :=
  { REDDIT_CLIENT_ID := ""
    REDDIT_CLIENT_SECRET := ""
    REDDIT_USER_AGENT := "redditsearch/0.1.0"
    DEFAULT_SUBREDDITS := ["SaaS", "Entrepreneur", "startups"]
    DEFAULT_KEYWORDS := ["pay for", "need a tool", "wish there was"]
    DATABASE_PATH := "data/redditsearch.db"
    OUTPUT_DIR := "output" }

/-- The recognized external key names, one per field. -/
def recognizedKeys : List String :=
  ["REDDIT_CLIENT_ID", "REDDIT_CLIENT_SECRET", "REDDIT_USER_AGENT",
   "DEFAULT_SUBREDDITS", "DEFAULT_KEYWORDS", "DATABASE_PATH", "OUTPUT_DIR"]

/-- Modelled from the spec: construction of a Settings instance by the
pydantic BaseSettings machinery, absent from src. Each field is resolved
from the environment, then the override file, then the built-in default;
sequence-typed fields parse their external value and fail with an error
naming the field when it is malformed; unknown keys are never consulted. -/
def loadSettings (env dotenv : Env) : Except SettingsError Settings :=
  match resolveList env dotenv "DEFAULT_SUBREDDITS"
      ["SaaS", "Entrepreneur", "startups"] with
  | Except.error e => Except.error e
  | Except.ok subs =>
    match resolveList env dotenv "DEFAULT_KEYWORDS"
        ["pay for", "need a tool", "wish there was"] with
    | Except.error e => Except.error e
    | Except.ok kws =>
      Except.ok
        { REDDIT_CLIENT_ID := resolveStr env dotenv "REDDIT_CLIENT_ID" ""
          REDDIT_CLIENT_SECRET := resolveStr env dotenv "REDDIT_CLIENT_SECRET" ""
          REDDIT_USER_AGENT :=
            resolveStr env dotenv "REDDIT_USER_AGENT" "redditsearch/0.1.0"
          DEFAULT_SUBREDDITS := subs
          DEFAULT_KEYWORDS := kws
          DATABASE_PATH := resolveStr env dotenv "DATABASE_PATH" "data/redditsearch.db"
          OUTPUT_DIR := resolveStr env dotenv "OUTPUT_DIR" "output" }

/-- The factory get_settings of src/config/settings.py: builds a fresh
Settings instance on every call, with no caching. -/
def get_settings (env dotenv : Env) : Except SettingsError Settings :=
  loadSettings env dotenv

/-- Two sequential calls to the settings factory with the process
environment mutated in between; the override file stays the same. -/
def get_settings_twice (env1 env2 dotenv : Env) :
    Except SettingsError Settings × Except SettingsError Settings :=
  (get_settings env1 dotenv, get_settings env2 dotenv)

/-- A simple string list: no element contains a double quote or a
backslash, so the list-literal encoding needs no escaping. -/
abbrev simpleStrings (l : List String) : Prop :=
  ∀ s ∈ l, '"' ∉ s.data ∧ '\\' ∉ s.data

/-- The formatter attached to the console handler in setup_logger:
logging.Formatter with format string and date format as in src. -/
structure LogFormatter where
  fmt : String
  datefmt : String
deriving Repr, DecidableEq

/-- The Rich console handler as constructed in setup_logger, with the
four keyword options passed in src/utils/logger.py and its formatter. -/
structure RichHandler where
  rich_tracebacks : Bool
  markup : Bool
  show_time : Bool
  show_path : Bool
  formatter : Option LogFormatter
deriving Repr, DecidableEq

/-- The state of one named logger: its severity threshold and its
attached handlers. -/
structure Logger where
  level : Nat
  handlers : List RichHandler
deriving Repr, DecidableEq

/-- Modelled from the spec: the process-wide named-logger registry of
the logging module, keyed by logger name. -/
abbrev Registry := List (String × Logger)

/-- A logger as freshly created by the registry: no explicit level, no
handlers. -/
def freshLogger : Logger :=
  { level := 0, handlers := [] }

/-- The console handler built by setup_logger: RichHandler with
rich_tracebacks, markup and show_time on, show_path off, and the
message-only formatter with bracketed time format. -/
def consoleHandler : RichHandler :=
  { rich_tracebacks := true
    markup := true
    show_time := true
    show_path := false
    formatter := some { fmt := "%(message)s", datefmt := "[%X]" } }

/-- Store a logger under a name in the registry, replacing any previous
entry for that name. -/
def updateReg : Registry → String → Logger → Registry
  | [], n, lg => [(n, lg)]
  | (k, v) :: rest, n, lg =>
    if k = n then (n, lg) :: rest else (k, v) :: updateReg rest n lg

/-- The numeric value of the informational severity level. -/
def infoLevel : Nat := 20

/-- The default logger name used by setup_logger. -/
def defaultLoggerName : String := "redditsearch"

/-- The setup_logger factory of src/utils/logger.py as a transition on
the registry state: fetch (or create) the named logger, set its level
unconditionally, and attach the single console handler only when the
logger has no handlers yet. Returns the handle (the registry key of the
shared logger) together with the updated registry. -/
def setup_logger (name : String) (level : Nat) (reg : Registry) :
    String × Registry :=
  let lg0 := (List.lookup name reg).getD freshLogger
  let lg1 := { lg0 with level := level }
  let lg2 :=
    if lg1.handlers.isEmpty then { lg1 with handlers := [consoleHandler] }
    else lg1
  (name, updateReg reg name lg2)

/-- The logger state a handle refers to in a registry. -/
def loggerAt (reg : Registry) (name : String) : Logger :=
  (List.lookup name reg).getD freshLogger

/-- The module-level registry after the import-time call
logger = setup_logger() at the bottom of src/utils/logger.py. -/
def initialRegistry : Registry :=
  (setup_logger defaultLoggerName infoLevel []).2

/-- A wall-clock time of day, used for the timestamp of a log line. -/
structure Time where
  hh : Nat
  mm : Nat
  ss : Nat
deriving Repr, DecidableEq

/-- The character of a single decimal digit. -/
def digitChar (n : Nat) : Char :=
  Char.ofNat (48 + n)

/-- A number rendered as exactly two decimal digits, zero padded. -/
def pad2 (n : Nat) : String :=
  String.mk [digitChar (n / 10), digitChar (n % 10)]

/-- Modelled from the spec: the bracketed timestamp prefix of a console
line, of the form [HH:MM:SS], produced by the Rich sink whose time
rendering is library code absent from src. -/
def formatTimestamp (t : Time) : String :=
  "[" ++ pad2 t.hh ++ ":" ++ pad2 t.mm ++ ":" ++ pad2 t.ss ++ "]"

/-- Modelled from the spec: the console line emitted for one accepted
record, a timestamp of the form [HH:MM:SS] followed by the message. -/
def emitLine (t : Time) (msg : String) : String :=
  formatTimestamp t ++ " " ++ msg

/-- Modelled from the spec: delivery of one leveled message to a logger,
absent from src (library code). A message at or above the threshold is
written once to every attached sink; a message below it is dropped. -/
def logMessage (lg : Logger) (lvl : Nat) (msg : String) (t : Time) :
    List String :=
  if lg.level ≤ lvl then lg.handlers.map (fun _ => emitLine t msg) else []

end RedditSearch

namespace RedditSearch

/-- The data of a packed character list is that list. -/
theorem data_mk (cs : List Char) : (String.mk cs).data = cs := rfl

/-- Association-list lookup skips a pair whose key differs. -/
theorem lookup_cons_ne (K k v : String) (env : Env) (h : (K == k) = false) :
    List.lookup K ((k, v) :: env) = List.lookup K env := by
  simp [List.lookup, h]

/-- Looking up a name right after storing a logger under it yields that
logger. -/
theorem lookup_updateReg_self (reg : Registry) (n : String) (lg : Logger) :
    List.lookup n (updateReg reg n lg) = some lg := by
  induction reg with
  | nil => simp [updateReg, List.lookup]
  | cons p rest ih =>
    obtain ⟨k, v⟩ := p
    by_cases hk : k = n
    · subst hk
      simp [updateReg, List.lookup]
    · have hk2 : ¬ n = k := fun e => hk e.symm
      have hbeq : (n == k) = false := by simp [hk2]
      simp [updateReg, hk, List.lookup, hbeq, ih]

/-- Scanning a quote-free body followed by a closing quote returns the
body and the remainder. -/
theorem scanStr_append (cs rest : List Char) (h : '"' ∉ cs) :
    scanStr (cs ++ '"' :: rest) = some (cs, rest) := by
  induction cs with
  | nil => simp [scanStr]
  | cons c cs ih =>
    have hc : ¬ c = '"' := fun e => h (by simp [e])
    have h2 : '"' ∉ cs := fun hm => h (List.mem_cons_of_mem _ hm)
    simp [scanStr, hc, ih h2]

/-- The head structure of the encoding of a nonempty list. -/
theorem encItems_cons_eq (s : String) (t : List String) :
    encItems (s :: t) =
      '"' :: (s.data ++ ['"'] ++
        (if t.isEmpty then [] else [',', ' ']) ++ encItems t) := by
  simp [encItems, quoteChars, List.append_assoc]

/-- The encoding of a list is at least as long as the list. -/
theorem encItems_length (l : List String) :
    l.length ≤ (encItems l).length := by
  induction l with
  | nil => simp [encItems]
  | cons s t ih =>
    rw [encItems_cons_eq]
    simp only [List.length_cons, List.length_append, List.length_nil]
    omega

/-- Parsing the encoded items of a nonempty quote-free list consumes
them and the closing bracket, yielding the original list. -/
theorem parseItems_encItems :
    ∀ (l : List String) (rest : List Char) (fuel : Nat),
      l ≠ [] → (∀ s ∈ l, '"' ∉ s.data) → l.length ≤ fuel →
      parseItems fuel (encItems l ++ ']' :: rest) = some (l, rest) := by
  intro l
  induction l with
  | nil => intro rest fuel h _ _; exact absurd rfl h
  | cons s t ih =>
    intro rest fuel _ hsimple hfuel
    simp only [List.length_cons] at hfuel
    obtain ⟨f, rfl⟩ : ∃ f, fuel = f + 1 := ⟨fuel - 1, by omega⟩
    have hs : '"' ∉ s.data := hsimple s (List.mem_cons_self s t)
    cases t with
    | nil =>
      have he : encItems [s] ++ ']' :: rest = '"' :: (s.data ++ '"' :: ']' :: rest) := by
        simp [encItems, quoteChars]
      rw [he]
      simp [parseItems, scanStr_append s.data (']' :: rest) hs]
    | cons a b =>
      have he : encItems (s :: a :: b) ++ ']' :: rest
          = '"' :: (s.data ++ '"' :: ',' :: ' ' ::
              (encItems (a :: b) ++ ']' :: rest)) := by
        rw [encItems_cons_eq]
        simp [List.append_assoc]
      rw [he]
      have hrec := ih rest f (by simp)
        (fun x hx => hsimple x (List.mem_cons_of_mem s hx))
        (by simp only [List.length_cons] at hfuel ⊢; omega)
      simp [parseItems, scanStr_append s.data _ hs, hrec]

/-- The chosen list-literal encoding round-trips every quote-free list
of strings through the parser. -/
theorem parseStrList_encodeStrList (l : List String)
    (h : ∀ s ∈ l, '"' ∉ s.data) :
    parseStrList (encodeStrList l) = some l := by
  cases l with
  | nil => rfl
  | cons s t =>
    have hfl : (s :: t).length ≤ (encItems (s :: t) ++ [']']).length := by
      have hE := encItems_length (s :: t)
      simp only [List.length_append, List.length_cons] at hE ⊢
      omega
    have hp := parseItems_encItems (s :: t) []
      ((encItems (s :: t) ++ [']']).length) (by simp) h hfl
    simp only [encodeStrList, parseStrList, data_mk]
    simp only [encItems_cons_eq] at hp ⊢
    simp [List.append_assoc] at hp ⊢
    rw [hp]

/-- C1: with no environment variables set and no override file present,
the settings provider returns the snapshot whose seven fields are
exactly the documented built-in defaults. -/
theorem get_settings_defaults :
    get_settings [] [] = Except.ok
      { REDDIT_CLIENT_ID := ""
        REDDIT_CLIENT_SECRET := ""
        REDDIT_USER_AGENT := "redditsearch/0.1.0"
        DEFAULT_SUBREDDITS := ["SaaS", "Entrepreneur", "startups"]
        DEFAULT_KEYWORDS := ["pay for", "need a tool", "wish there was"]
        DATABASE_PATH := "data/redditsearch.db"
        OUTPUT_DIR := "output" } := by
  rfl

/-- C3 counterexample: with the sequence-typed field DEFAULT_SUBREDDITS
supplied the value oops, which is not a list literal, the provider
raises a validation error instead of yielding a snapshot, so the claim
as stated over every string value fails. -/
theorem loadSettings_invalid_value_not_snapshot :
    loadSettings [("DEFAULT_SUBREDDITS", "oops")] [] =
      Except.error (SettingsError.parseFailure "DEFAULT_SUBREDDITS") := rfl

/-- C3 amended: for every recognized field supplied with a single
environment value coercible to the field type (any string for the five
string fields, a parseable list literal for the two sequence fields),
the snapshot reflects that value in that field and keeps the built-in
default in every other field. -/
theorem loadSettings_single_field_frame :
    (∀ v : String, loadSettings [("REDDIT_CLIENT_ID", v)] [] =
        Except.ok { defaultSettings with REDDIT_CLIENT_ID := v }) ∧
    (∀ v : String, loadSettings [("REDDIT_CLIENT_SECRET", v)] [] =
        Except.ok { defaultSettings with REDDIT_CLIENT_SECRET := v }) ∧
    (∀ v : String, loadSettings [("REDDIT_USER_AGENT", v)] [] =
        Except.ok { defaultSettings with REDDIT_USER_AGENT := v }) ∧
    (∀ v : String, loadSettings [("DATABASE_PATH", v)] [] =
        Except.ok { defaultSettings with DATABASE_PATH := v }) ∧
    (∀ v : String, loadSettings [("OUTPUT_DIR", v)] [] =
        Except.ok { defaultSettings with OUTPUT_DIR := v }) ∧
    (∀ v : String, ∀ l : List String, parseStrList v = some l →
        loadSettings [("DEFAULT_SUBREDDITS", v)] [] =
          Except.ok { defaultSettings with DEFAULT_SUBREDDITS := l }) ∧
    (∀ v : String, ∀ l : List String, parseStrList v = some l →
        loadSettings [("DEFAULT_KEYWORDS", v)] [] =
          Except.ok { defaultSettings with DEFAULT_KEYWORDS := l }) := by
  refine ⟨fun v => rfl, fun v => rfl, fun v => rfl, fun v => rfl,
    fun v => rfl, ?_, ?_⟩ <;>
  · intro v l hv
    simp [loadSettings, resolveList, resolve, resolveStr, List.lookup, hv,
      defaultSettings]

/-- C3 witness: a string field and a sequence field each overridden on
their own change only themselves. -/
theorem loadSettings_single_field_frame_witness :
    parseStrList "[\"nba\", \"nfl\"]" = some ["nba", "nfl"] ∧
    loadSettings [("REDDIT_CLIENT_ID", "abc")] [] =
      Except.ok { defaultSettings with REDDIT_CLIENT_ID := "abc" } ∧
    loadSettings [("DEFAULT_SUBREDDITS", "[\"nba\", \"nfl\"]")] [] =
      Except.ok { defaultSettings with DEFAULT_SUBREDDITS := ["nba", "nfl"] } :=
  ⟨by decide, loadSettings_single_field_frame.1 "abc",
   loadSettings_single_field_frame.2.2.2.2.2.1 "[\"nba\", \"nfl\"]"
     ["nba", "nfl"] (by decide)⟩

/-- C4: per-field precedence: a process environment variable overrides
the override-file value for the same key, which in turn overrides the
built-in default; the environment value wins whenever both are
present. -/
theorem loadSettings_env_overrides_file :
    (∀ v w : String,
      loadSettings [("REDDIT_CLIENT_ID", v)] [("REDDIT_CLIENT_ID", w)] =
        Except.ok { defaultSettings with REDDIT_CLIENT_ID := v } ∧
      loadSettings [] [("REDDIT_CLIENT_ID", w)] =
        Except.ok { defaultSettings with REDDIT_CLIENT_ID := w }) ∧
    (∀ v w : String,
      loadSettings [("REDDIT_CLIENT_SECRET", v)] [("REDDIT_CLIENT_SECRET", w)] =
        Except.ok { defaultSettings with REDDIT_CLIENT_SECRET := v } ∧
      loadSettings [] [("REDDIT_CLIENT_SECRET", w)] =
        Except.ok { defaultSettings with REDDIT_CLIENT_SECRET := w }) ∧
    (∀ v w : String,
      loadSettings [("REDDIT_USER_AGENT", v)] [("REDDIT_USER_AGENT", w)] =
        Except.ok { defaultSettings with REDDIT_USER_AGENT := v } ∧
      loadSettings [] [("REDDIT_USER_AGENT", w)] =
        Except.ok { defaultSettings with REDDIT_USER_AGENT := w }) ∧
    (∀ v w : String,
      loadSettings [("DATABASE_PATH", v)] [("DATABASE_PATH", w)] =
        Except.ok { defaultSettings with DATABASE_PATH := v } ∧
      loadSettings [] [("DATABASE_PATH", w)] =
        Except.ok { defaultSettings with DATABASE_PATH := w }) ∧
    (∀ v w : String,
      loadSettings [("OUTPUT_DIR", v)] [("OUTPUT_DIR", w)] =
        Except.ok { defaultSettings with OUTPUT_DIR := v } ∧
      loadSettings [] [("OUTPUT_DIR", w)] =
        Except.ok { defaultSettings with OUTPUT_DIR := w }) ∧
    (∀ v w : String, ∀ lv lw : List String,
      parseStrList v = some lv → parseStrList w = some lw →
      loadSettings [("DEFAULT_SUBREDDITS", v)] [("DEFAULT_SUBREDDITS", w)] =
        Except.ok { defaultSettings with DEFAULT_SUBREDDITS := lv } ∧
      loadSettings [] [("DEFAULT_SUBREDDITS", w)] =
        Except.ok { defaultSettings with DEFAULT_SUBREDDITS := lw }) ∧
    (∀ v w : String, ∀ lv lw : List String,
      parseStrList v = some lv → parseStrList w = some lw →
      loadSettings [("DEFAULT_KEYWORDS", v)] [("DEFAULT_KEYWORDS", w)] =
        Except.ok { defaultSettings with DEFAULT_KEYWORDS := lv } ∧
      loadSettings [] [("DEFAULT_KEYWORDS", w)] =
        Except.ok { defaultSettings with DEFAULT_KEYWORDS := lw }) := by
  refine ⟨fun v w => ⟨rfl, rfl⟩, fun v w => ⟨rfl, rfl⟩, fun v w => ⟨rfl, rfl⟩,
    fun v w => ⟨rfl, rfl⟩, fun v w => ⟨rfl, rfl⟩, ?_, ?_⟩ <;>
  · intro v w lv lw hv hw
    constructor <;>
      simp [loadSettings, resolveList, resolve, resolveStr, List.lookup,
        hv, hw, defaultSettings]

/-- C4 witness: a string field and a sequence field, each with both an
environment value and an override-file value: the environment wins; the
file value applies when the environment has none. -/
theorem loadSettings_env_overrides_file_witness :
    parseStrList "[\"a\"]" = some ["a"] ∧
    parseStrList "[\"b\"]" = some ["b"] ∧
    (loadSettings [("DEFAULT_SUBREDDITS", "[\"a\"]")]
        [("DEFAULT_SUBREDDITS", "[\"b\"]")] =
       Except.ok { defaultSettings with DEFAULT_SUBREDDITS := ["a"] } ∧
     loadSettings [] [("DEFAULT_SUBREDDITS", "[\"b\"]")] =
       Except.ok { defaultSettings with DEFAULT_SUBREDDITS := ["b"] }) ∧
    (loadSettings [("DATABASE_PATH", "x")] [("DATABASE_PATH", "y")] =
       Except.ok { defaultSettings with DATABASE_PATH := "x" } ∧
     loadSettings [] [("DATABASE_PATH", "y")] =
       Except.ok { defaultSettings with DATABASE_PATH := "y" }) :=
  ⟨by decide, by decide,
   loadSettings_env_overrides_file.2.2.2.2.2.1 "[\"a\"]" "[\"b\"]"
     ["a"] ["b"] (by decide) (by decide),
   loadSettings_env_overrides_file.2.2.2.1 "x" "y"⟩

/-- C5: a sequence-typed field supplied with a value that is not a valid
list literal makes the provider fail with a validation error that names
the offending field, whether the value came from the environment or the
override file; the built-in default is never silently substituted. -/
theorem loadSettings_invalid_value_error (v : String)
    (h : parseStrList v = none) :
    loadSettings [("DEFAULT_SUBREDDITS", v)] [] =
      Except.error (SettingsError.parseFailure "DEFAULT_SUBREDDITS") ∧
    loadSettings [("DEFAULT_KEYWORDS", v)] [] =
      Except.error (SettingsError.parseFailure "DEFAULT_KEYWORDS") ∧
    loadSettings [] [("DEFAULT_SUBREDDITS", v)] =
      Except.error (SettingsError.parseFailure "DEFAULT_SUBREDDITS") ∧
    loadSettings [] [("DEFAULT_KEYWORDS", v)] =
      Except.error (SettingsError.parseFailure "DEFAULT_KEYWORDS") := by
  refine ⟨?_, ?_, ?_, ?_⟩ <;>
    simp [loadSettings, resolveList, resolve, List.lookup, h]

/-- C5 witness: the value oops is rejected with an error naming the
field it was supplied for. -/
theorem loadSettings_invalid_value_error_witness :
    parseStrList "oops" = none ∧
    (loadSettings [("DEFAULT_SUBREDDITS", "oops")] [] =
       Except.error (SettingsError.parseFailure "DEFAULT_SUBREDDITS") ∧
     loadSettings [("DEFAULT_KEYWORDS", "oops")] [] =
       Except.error (SettingsError.parseFailure "DEFAULT_KEYWORDS") ∧
     loadSettings [] [("DEFAULT_SUBREDDITS", "oops")] =
       Except.error (SettingsError.parseFailure "DEFAULT_SUBREDDITS") ∧
     loadSettings [] [("DEFAULT_KEYWORDS", "oops")] =
       Except.error (SettingsError.parseFailure "DEFAULT_KEYWORDS")) :=
  ⟨by decide, loadSettings_invalid_value_error "oops" (by decide)⟩

/-- C6: encoding any simple list of strings in the chosen list-literal
encoding and supplying it as the single external value of a
sequence-typed field yields a snapshot whose value for that field is
exactly the original ordered list: the encoding round-trips. -/
theorem loadSettings_list_roundtrip (l : List String)
    (h : simpleStrings l) :
    loadSettings [("DEFAULT_SUBREDDITS", encodeStrList l)] [] =
      Except.ok { defaultSettings with DEFAULT_SUBREDDITS := l } ∧
    loadSettings [("DEFAULT_KEYWORDS", encodeStrList l)] [] =
      Except.ok { defaultSettings with DEFAULT_KEYWORDS := l } := by
  have hq : ∀ s ∈ l, '"' ∉ s.data := fun s hs => (h s hs).1
  have hr := parseStrList_encodeStrList l hq
  constructor <;>
    simp [loadSettings, resolveList, resolve, resolveStr, List.lookup, hr,
      defaultSettings]

/-- C6 witness: the default keyword list itself round-trips through the
encoding on both sequence fields. -/
theorem loadSettings_list_roundtrip_witness :
    simpleStrings ["pay for", "need a tool"] ∧
    (loadSettings
        [("DEFAULT_SUBREDDITS", encodeStrList ["pay for", "need a tool"])] [] =
       Except.ok { defaultSettings with
         DEFAULT_SUBREDDITS := ["pay for", "need a tool"] } ∧
     loadSettings
        [("DEFAULT_KEYWORDS", encodeStrList ["pay for", "need a tool"])] [] =
       Except.ok { defaultSettings with
         DEFAULT_KEYWORDS := ["pay for", "need a tool"] }) :=
  ⟨by decide, loadSettings_list_roundtrip ["pay for", "need a tool"] (by decide)⟩

/-- C7: the provider never caches across calls: the result of the
second of two sequential calls depends only on the environment at the
time of that call, and reflects a mutation made between the calls. -/
theorem get_settings_no_cache :
    (∀ env1 env1' env2 dotenv : Env,
      (get_settings_twice env1 env2 dotenv).2 =
        (get_settings_twice env1' env2 dotenv).2) ∧
    (∀ v1 v2 : String,
      (get_settings_twice [("DATABASE_PATH", v1)]
          [("DATABASE_PATH", v2)] []).1 =
        Except.ok { defaultSettings with DATABASE_PATH := v1 } ∧
      (get_settings_twice [("DATABASE_PATH", v1)]
          [("DATABASE_PATH", v2)] []).2 =
        Except.ok { defaultSettings with DATABASE_PATH := v2 }) :=
  ⟨fun _ _ _ _ => rfl, fun _ _ => ⟨rfl, rfl⟩⟩

/-- C8: a key outside the recognized set of seven names, present in the
environment or in the override file, never alters any field of the
snapshot and is ignored without raising an error. -/
theorem loadSettings_ignores_unknown_keys (k v : String) (env dotenv : Env)
    (h : k ∉ recognizedKeys) :
    loadSettings ((k, v) :: env) dotenv = loadSettings env dotenv ∧
    loadSettings env ((k, v) :: dotenv) = loadSettings env dotenv := by
  simp only [recognizedKeys, List.mem_cons, List.not_mem_nil, or_false,
    not_or] at h
  obtain ⟨h1, h2, h3, h4, h5, h6, h7⟩ := h
  have b1 : ("REDDIT_CLIENT_ID" == k) = false := by simp [Ne.symm h1]
  have b2 : ("REDDIT_CLIENT_SECRET" == k) = false := by simp [Ne.symm h2]
  have b3 : ("REDDIT_USER_AGENT" == k) = false := by simp [Ne.symm h3]
  have b4 : ("DEFAULT_SUBREDDITS" == k) = false := by simp [Ne.symm h4]
  have b5 : ("DEFAULT_KEYWORDS" == k) = false := by simp [Ne.symm h5]
  have b6 : ("DATABASE_PATH" == k) = false := by simp [Ne.symm h6]
  have b7 : ("OUTPUT_DIR" == k) = false := by simp [Ne.symm h7]
  constructor
  · simp only [loadSettings, resolveList, resolveStr, resolve,
      lookup_cons_ne "REDDIT_CLIENT_ID" k v env b1,
      lookup_cons_ne "REDDIT_CLIENT_SECRET" k v env b2,
      lookup_cons_ne "REDDIT_USER_AGENT" k v env b3,
      lookup_cons_ne "DEFAULT_SUBREDDITS" k v env b4,
      lookup_cons_ne "DEFAULT_KEYWORDS" k v env b5,
      lookup_cons_ne "DATABASE_PATH" k v env b6,
      lookup_cons_ne "OUTPUT_DIR" k v env b7]
  · simp only [loadSettings, resolveList, resolveStr, resolve,
      lookup_cons_ne "REDDIT_CLIENT_ID" k v dotenv b1,
      lookup_cons_ne "REDDIT_CLIENT_SECRET" k v dotenv b2,
      lookup_cons_ne "REDDIT_USER_AGENT" k v dotenv b3,
      lookup_cons_ne "DEFAULT_SUBREDDITS" k v dotenv b4,
      lookup_cons_ne "DEFAULT_KEYWORDS" k v dotenv b5,
      lookup_cons_ne "DATABASE_PATH" k v dotenv b6,
      lookup_cons_ne "OUTPUT_DIR" k v dotenv b7]

/-- C8 witness: an unrecognized key in either source leaves the default
snapshot untouched. -/
theorem loadSettings_ignores_unknown_keys_witness :
    "SOME_OTHER_KEY" ∉ recognizedKeys ∧
    (loadSettings [("SOME_OTHER_KEY", "zzz")] [] = loadSettings [] [] ∧
     loadSettings [] [("SOME_OTHER_KEY", "zzz")] = loadSettings [] []) :=
  ⟨by decide,
   loadSettings_ignores_unknown_keys "SOME_OTHER_KEY" "zzz" [] [] (by decide)⟩

/-- C2: calling the factory twice with the same name returns the same
handle both times, and when the named logger starts with no attached
sink the shared logger ends up with exactly one console sink in total:
the second call inspects the attached handlers and does not add a
second one. -/
theorem setup_logger_idempotent (n : String) (L : Nat) (reg : Registry)
    (h : (loggerAt reg n).handlers = []) :
    (setup_logger n L reg).1 = (setup_logger n L (setup_logger n L reg).2).1 ∧
    (loggerAt (setup_logger n L (setup_logger n L reg).2).2 n).handlers.length = 1 ∧
    (loggerAt (setup_logger n L (setup_logger n L reg).2).2 n).handlers =
      [consoleHandler] := by
  simp only [loggerAt] at h
  refine ⟨rfl, ?_, ?_⟩ <;>
    simp [setup_logger, loggerAt, h, lookup_updateReg_self]

/-- C2 witness: two calls under the default name from the empty registry
leave exactly one console sink attached. -/
theorem setup_logger_idempotent_witness :
    (loggerAt [] "redditsearch").handlers = [] ∧
    ((setup_logger "redditsearch" 20 []).1 =
      (setup_logger "redditsearch" 20 (setup_logger "redditsearch" 20 []).2).1 ∧
     (loggerAt (setup_logger "redditsearch" 20
        (setup_logger "redditsearch" 20 []).2).2 "redditsearch").handlers.length = 1 ∧
     (loggerAt (setup_logger "redditsearch" 20
        (setup_logger "redditsearch" 20 []).2).2 "redditsearch").handlers =
       [consoleHandler]) :=
  ⟨rfl, setup_logger_idempotent "redditsearch" 20 [] rfl⟩

/-- C10: the factory sets the threshold of the named logger to the given
level on every call, before the attached-sink check: a second call with
a different level mutates the level of the already-existing shared
logger while its handlers are left untouched. -/
theorem setup_logger_level_not_protected (n : String) (L1 L2 : Nat) (reg : Registry) :
    (loggerAt (setup_logger n L1 reg).2 n).level = L1 ∧
    (loggerAt (setup_logger n L2 (setup_logger n L1 reg).2).2 n).level = L2 ∧
    (loggerAt (setup_logger n L2 (setup_logger n L1 reg).2).2 n).handlers =
      (loggerAt (setup_logger n L1 reg).2 n).handlers := by
  cases hsplit : ((List.lookup n reg).getD freshLogger).handlers with
  | nil =>
    refine ⟨?_, ?_, ?_⟩ <;>
      simp [setup_logger, loggerAt, hsplit, lookup_updateReg_self]
  | cons a as =>
    refine ⟨?_, ?_, ?_⟩ <;>
      simp [setup_logger, loggerAt, hsplit, lookup_updateReg_self]

/-- A decimal digit below ten renders as a digit character. -/
theorem digitChar_isDigit (d : Nat) (h : d < 10) :
    (digitChar d).isDigit = true := by
  interval_cases d <;> decide

/-- A two-digit rendering of a number below one hundred consists of
digit characters only. -/
theorem pad2_all_digits (x : Nat) (h : x < 100) :
    ((pad2 x).data.all Char.isDigit) = true := by
  have h1 : x / 10 < 10 := by omega
  have h2 : x % 10 < 10 := by omega
  simp [pad2, data_mk, digitChar_isDigit _ h1, digitChar_isDigit _ h2]

/-- C9: a message at or above the configured threshold, delivered to the
logger set up by the factory, produces exactly one console line, and
that line is a bracketed two-digit HH:MM:SS timestamp followed by the
message text. -/
theorem logger_emits_one_formatted_line (n : String) (L lvl : Nat)
    (msg : String) (t : Time)
    (hacc : L ≤ lvl) (hh : t.hh < 24) (hm : t.mm < 60) (hs : t.ss < 60) :
    (logMessage (loggerAt (setup_logger n L []).2 n) lvl msg t).length = 1 ∧
    logMessage (loggerAt (setup_logger n L []).2 n) lvl msg t =
      ["[" ++ pad2 t.hh ++ ":" ++ pad2 t.mm ++ ":" ++ pad2 t.ss ++ "]" ++ " " ++ msg] ∧
    (pad2 t.hh).length = 2 ∧ (pad2 t.mm).length = 2 ∧ (pad2 t.ss).length = 2 ∧
    ((pad2 t.hh).data.all Char.isDigit) = true ∧
    ((pad2 t.mm).data.all Char.isDigit) = true ∧
    ((pad2 t.ss).data.all Char.isDigit) = true := by
  have hreg : loggerAt (setup_logger n L []).2 n =
      { level := L, handlers := [consoleHandler] } := by
    simp [setup_logger, loggerAt, updateReg, List.lookup, freshLogger]
  rw [hreg]
  refine ⟨?_, ?_, rfl, rfl, rfl,
    pad2_all_digits t.hh (by omega), pad2_all_digits t.mm (by omega),
    pad2_all_digits t.ss (by omega)⟩
  · simp [logMessage, hacc]
  · simp [logMessage, hacc, emitLine, formatTimestamp]

/-- C9 witness: an informational message at the informational threshold
at time 12:34:56 yields the single line with its bracketed timestamp. -/
theorem logger_emits_one_formatted_line_witness :
    20 ≤ 20 ∧ 12 < 24 ∧ 34 < 60 ∧ 56 < 60 ∧
    ((logMessage (loggerAt (setup_logger "redditsearch" 20 []).2 "redditsearch")
        20 "Starting search..." ⟨12, 34, 56⟩).length = 1 ∧
     logMessage (loggerAt (setup_logger "redditsearch" 20 []).2 "redditsearch")
        20 "Starting search..." ⟨12, 34, 56⟩ =
       ["[" ++ pad2 12 ++ ":" ++ pad2 34 ++ ":" ++ pad2 56 ++ "]" ++ " " ++
         "Starting search..."] ∧
     (pad2 12).length = 2 ∧ (pad2 34).length = 2 ∧ (pad2 56).length = 2 ∧
     ((pad2 12).data.all Char.isDigit) = true ∧
     ((pad2 34).data.all Char.isDigit) = true ∧
     ((pad2 56).data.all Char.isDigit) = true) :=
  ⟨by decide, by decide, by decide, by decide,
   logger_emits_one_formatted_line "redditsearch" 20 20 "Starting search..."
     ⟨12, 34, 56⟩ (by decide) (by decide) (by decide) (by decide)⟩

end RedditSearch
